import Mathlib

/-!
Verification development for the trello-gcal-sync repository.

The repository is a Go service that keeps Google Calendar events in sync
with Trello card due dates, driven by Trello webhooks.  This file gives a
shallow embedding of the decision logic:

* `GoTime` models the wall-clock content of a Go `time.Time` value as
  produced by `time.Parse(time.RFC3339, s)`: calendar fields plus a fixed
  zone offset in minutes.  `parseRFC3339` and `formatRFC3339` model
  `time.Parse(time.RFC3339, _)` and `Format(time.RFC3339)`;
  `format20060102` models `Format("2006-01-02")` and `addOneDay` models
  `AddDate(0, 0, 1)` on a valid date.
* `Card`, `TrelloCardData`, `TrelloBoardData`, `TrelloWebhookPayload`
  embed the structs of `internal/models` (the gorm bookkeeping columns
  `CreatedAt`/`UpdatedAt`, which the decision logic never reads, are
  omitted).
* `CreateEvent`, `UpdateEvent`, `DeleteEvent` embed the methods of
  `integrations.CalendarClient`; the Google Calendar service is abstracted
  as a `GCalRemote` record of call results, the `calendar_id` read from
  configuration becomes an explicit argument, and each function also
  returns the list of remote calls it issued.
* `RegisterWebhook`, `DeleteWebhook` embed the methods of
  `integrations.TrelloClient`, including their use of
  `retry.Do(op, retry.Attempts(3), retry.DelayType(retry.BackOffDelay))`;
  the HTTP world is abstracted as a function from attempt index to outcome
  and `retryDo` models the value semantics of the retry-go library
  (backoff delays do not affect values).
* `processCardUpdate`, `syncCalendarEvent`, `deleteCalendarEvent` embed
  the reconciliation logic of `api/handlers.go`; the database is
  abstracted as the result of the initial `DB.First` lookup, the calendar
  client as a `CalendarAPI` record of call results, and the functions
  return the card handed to `DB.Save` (or `none` when no save happens, or
  an error when the pass aborts) together with the list of calendar calls
  issued.
-/

/-- A Gregorian year is a leap year per Go's `isLeap`. -/
def isLeap (y : Nat) : Bool :=
  y % 4 == 0 && (y % 100 != 0 || y % 400 == 0)

/-- Number of days in a month (month numbered 1..12), per the Gregorian
calendar used by Go's `time` package. -/
def daysInMonth (y m : Nat) : Nat :=
  if m == 2 then (if isLeap y then 29 else 28)
  else if m == 4 || m == 6 || m == 9 || m == 11 then 30
  else 31

/-- Wall-clock content of a Go `time.Time` produced by RFC3339 parsing:
calendar fields plus the fixed zone offset in minutes (0 for `Z`).
Fractional seconds are not stored: no decision in the repository reads
them. -/
structure GoTime where
  year : Nat
  month : Nat
  day : Nat
  hour : Nat
  minute : Nat
  second : Nat
  offMin : Int
  deriving DecidableEq, Repr

/-- The calendar fields are in range and the day fits the month: the
well-formedness every `time.Time` produced by a successful parse has. -/
def GoTime.WF (t : GoTime) : Prop :=
  t.year ≤ 9999 ∧ 1 ≤ t.month ∧ t.month ≤ 12 ∧ 1 ≤ t.day ∧
    t.day ≤ daysInMonth t.year t.month ∧ t.hour ≤ 23 ∧ t.minute ≤ 59 ∧
    t.second ≤ 59

instance (t : GoTime) : Decidable t.WF := by
  unfold GoTime.WF; infer_instance

/-- `AddDate(0, 0, 1)`: the next calendar day, normalising month and year
rollover exactly as Go does for valid dates. -/
def addOneDay (t : GoTime) : GoTime :=
  if t.day < daysInMonth t.year t.month then { t with day := t.day + 1 }
  else if t.month < 12 then { t with day := 1, month := t.month + 1 }
  else { t with day := 1, month := 1, year := t.year + 1 }

/-- Decimal digits of a natural number padded to width 2, as Go's `%02d`
style date formatting produces. -/
def pad2 (n : Nat) : String :=
  if n < 10 then "0" ++ toString n else toString n

/-- Decimal digits padded to width 4, for the year field. -/
def pad4 (n : Nat) : String :=
  if n < 10 then "000" ++ toString n
  else if n < 100 then "00" ++ toString n
  else if n < 1000 then "0" ++ toString n
  else toString n

/-- `Format("2006-01-02")`: the wall-clock date as `YYYY-MM-DD`. -/
def format20060102 (t : GoTime) : String :=
  pad4 t.year ++ "-" ++ pad2 t.month ++ "-" ++ pad2 t.day

/-- The numeric zone offset rendered as `Z` or `+HH:MM` / `-HH:MM`. -/
def formatOffset (offMin : Int) : String :=
  if offMin = 0 then "Z"
  else if offMin < 0 then
    "-" ++ pad2 ((-offMin).toNat / 60) ++ ":" ++ pad2 ((-offMin).toNat % 60)
  else
    "+" ++ pad2 (offMin.toNat / 60) ++ ":" ++ pad2 (offMin.toNat % 60)

/-- `Format(time.RFC3339)`: `YYYY-MM-DDTHH:MM:SS` followed by the zone
offset. -/
def formatRFC3339 (t : GoTime) : String :=
  format20060102 t ++ "T" ++ pad2 t.hour ++ ":" ++ pad2 t.minute ++ ":" ++
    pad2 t.second ++ formatOffset t.offMin

/-- Value of a decimal digit character, `none` for any other character. -/
def digitVal (c : Char) : Option Nat :=
  if c.isDigit then some (c.toNat - 48) else none

/-- Read exactly two decimal digits from the front of the character
list. -/
def read2 : List Char → Option (Nat × List Char)
  | a :: b :: rest => do
    let x ← digitVal a
    let y ← digitVal b
    pure (10 * x + y, rest)
  | _ => none

/-- Read exactly four decimal digits from the front of the character
list. -/
def read4 : List Char → Option (Nat × List Char)
  | a :: b :: rest => do
    let x ← digitVal a
    let y ← digitVal b
    let r ← read2 rest
    pure (1000 * x + 100 * y + r.1, r.2)
  | _ => none

/-- Consume one expected literal character. -/
def readLit (c : Char) : List Char → Option (List Char)
  | a :: rest => if a = c then some rest else none
  | [] => none

/-- Read an optional fractional-seconds part: either nothing, or a dot
followed by at least one digit. -/
def readFrac : List Char → Option (List Char)
  | '.' :: rest =>
    let digits := rest.takeWhile Char.isDigit
    if digits.isEmpty then none else some (rest.dropWhile Char.isDigit)
  | rest => some rest

/-- Read the zone suffix: `Z` or a signed `HH:MM` offset, in minutes. -/
def readOffset : List Char → Option (Int × List Char)
  | 'Z' :: rest => some (0, rest)
  | '+' :: rest => do
    let h ← read2 rest
    let rest2 ← readLit ':' h.2
    let m ← read2 rest2
    if h.1 ≤ 23 && m.1 ≤ 59 then pure ((h.1 * 60 + m.1 : Nat), m.2) else none
  | '-' :: rest => do
    let h ← read2 rest
    let rest2 ← readLit ':' h.2
    let m ← read2 rest2
    if h.1 ≤ 23 && m.1 ≤ 59 then pure (-((h.1 * 60 + m.1 : Nat) : Int), m.2)
    else none
  | _ => none

/-- `time.Parse(time.RFC3339, s)`: strict `YYYY-MM-DDTHH:MM:SS` with an
optional fraction and a mandatory zone, with every field range-checked
(months 1..12, day fitting the month, hour below 24, minute and second
below 60); any failure yields `none` in place of Go's error value. -/
def parseRFC3339 (s : String) : Option GoTime := do
  let cs := s.data
  let y ← read4 cs
  let cs ← readLit '-' y.2
  let mo ← read2 cs
  let cs ← readLit '-' mo.2
  let d ← read2 cs
  let cs ← readLit 'T' d.2
  let h ← read2 cs
  let cs ← readLit ':' h.2
  let mi ← read2 cs
  let cs ← readLit ':' mi.2
  let sec ← read2 cs
  let cs ← readFrac sec.2
  let off ← readOffset cs
  if off.2.isEmpty && 1 ≤ mo.1 && mo.1 ≤ 12 && 1 ≤ d.1 &&
      d.1 ≤ daysInMonth y.1 mo.1 && h.1 ≤ 23 && mi.1 ≤ 59 && sec.1 ≤ 59 then
    pure { year := y.1, month := mo.1, day := d.1, hour := h.1,
           minute := mi.1, second := sec.1, offMin := off.1 }
  else none

/-- The persisted card record (`models.Card`), without the gorm
`CreatedAt`/`UpdatedAt` bookkeeping columns, which the decision logic
never reads. -/
structure Card where
  ID : String
  Name : String
  DueDate : Option GoTime
  URL : String
  BoardID : String
  Archived : Bool
  EventID : String
  deriving DecidableEq, Repr

/-- The gorm zero value a fresh `var card models.Card` has. -/
def zeroCard : Card :=
  { ID := "", Name := "", DueDate := none, URL := "", BoardID := "",
    Archived := false, EventID := "" }

/-- `models.TrelloCardData`: the card fragment of a webhook payload. -/
structure TrelloCardData where
  ID : String
  Name : String
  Due : String
  ShortLink : String
  Closed : Bool
  deriving DecidableEq, Repr

/-- `models.TrelloBoardData`: the board fragment of a webhook payload. -/
structure TrelloBoardData where
  ID : String
  Name : String
  deriving DecidableEq, Repr

/-- The `data` object nested in a webhook action. -/
structure TrelloActionData where
  card : TrelloCardData
  board : TrelloBoardData
  deriving DecidableEq, Repr

/-- The `action` object of a webhook payload: its data and its type
string. -/
structure TrelloAction where
  data : TrelloActionData
  type_ : String
  deriving DecidableEq, Repr

/-- `models.TrelloWebhookPayload`. -/
structure TrelloWebhookPayload where
  action : TrelloAction
  deriving DecidableEq, Repr

/-- A `calendar.EventDateTime` holding only the all-day `Date` field, the
only field the repository ever sets. -/
structure EventDateTime where
  date : String
  deriving DecidableEq, Repr

/-- The slice of `calendar.Event` the repository reads or writes: id,
summary, description and the all-day start and end dates. -/
structure CalEvent where
  id : String
  summary : String
  description : String
  start : EventDateTime
  endDT : EventDateTime
  deriving DecidableEq, Repr

/-- An error from the Google Calendar service: either a
`googleapi.Error` carrying an HTTP status code, or any other error. -/
inductive GoogleErr
  | api (code : Nat)
  | other (msg : String)
  deriving DecidableEq, Repr

/-- The Google Calendar service (`c.service.Events`) abstracted as the
results of its four operations, each keyed by calendar id (and event id
where applicable). -/
structure GCalRemote where
  insert : String → CalEvent → Except GoogleErr CalEvent
  get : String → String → Except GoogleErr CalEvent
  update : String → String → CalEvent → Except GoogleErr CalEvent
  delete : String → String → Except GoogleErr Unit

/-- One remote call issued by the calendar client, recorded for framing
arguments. -/
inductive RemoteCall
  | insert (calendarID : String) (event : CalEvent)
  | get (calendarID eventID : String)
  | update (calendarID eventID : String) (event : CalEvent)
  | delete (calendarID eventID : String)
  deriving DecidableEq, Repr

/-- `CalendarClient.CreateEvent`: refuses a card with no due date, then
refuses an empty configured calendar id, then inserts an all-day event
spanning the due date to the next day, with summary the card name and
description the card URL prefixed by the literal string used in the
source. The `calendar_id` configuration value is the `calendarID`
argument. Returns the result together with the remote calls issued. -/
def CreateEvent (remote : GCalRemote) (calendarID : String) (card : Card) :
    Except String CalEvent × List RemoteCall :=
  match card.DueDate with
  | none => (.error "card does not have a due date, cannot create event", [])
  | some due =>
    if calendarID = "" then
      (.error "google calendar ID is not configured", [])
    else
      let event : CalEvent :=
        { id := "", summary := card.Name,
          description := "Trello Card: " ++ card.URL,
          start := { date := format20060102 due },
          endDT := { date := format20060102 (addOneDay due) } }
      match remote.insert calendarID event with
      | .error _ =>
        (.error "unable to create event in Google Calendar",
          [.insert calendarID event])
      | .ok created => (.ok created, [.insert calendarID event])

/-- `CalendarClient.UpdateEvent`: same due-date and calendar-id guards as
`CreateEvent`, then fetches the existing event (a fetch failure is a hard
error), overwrites summary, description and date span, and persists the
fetched event under its own id. -/
def UpdateEvent (remote : GCalRemote) (calendarID : String) (card : Card)
    (eventID : String) : Except String CalEvent × List RemoteCall :=
  match card.DueDate with
  | none => (.error "card does not have a due date, cannot update event", [])
  | some due =>
    if calendarID = "" then
      (.error "google calendar ID is not configured", [])
    else
      match remote.get calendarID eventID with
      | .error _ =>
        (.error "unable to retrieve event from Google Calendar",
          [.get calendarID eventID])
      | .ok fetched =>
        let event : CalEvent :=
          { fetched with
            summary := card.Name
            description := "Trello Card: " ++ card.URL
            start := { date := format20060102 due }
            endDT := { date := format20060102 (addOneDay due) } }
        match remote.update calendarID event.id event with
        | .error _ =>
          (.error "unable to update event in Google Calendar",
            [.get calendarID eventID, .update calendarID event.id event])
        | .ok updated =>
          (.ok updated,
            [.get calendarID eventID, .update calendarID event.id event])

/-- `CalendarClient.DeleteEvent`: refuses an empty configured calendar id,
deletes the event, and converts a `googleapi.Error` with code 404 into
success (the event is already gone); every other failure propagates. -/
def DeleteEvent (remote : GCalRemote) (calendarID eventID : String) :
    Except String Unit × List RemoteCall :=
  if calendarID = "" then
    (.error "google calendar ID is not configured", [])
  else
    match remote.delete calendarID eventID with
    | .ok _ => (.ok (), [.delete calendarID eventID])
    | .error e =>
      match e with
      | .api 404 => (.ok (), [.delete calendarID eventID])
      | _ =>
        (.error "unable to delete event from Google Calendar",
          [.delete calendarID eventID])

/-- Outcome of one HTTP attempt inside the Trello client: request
construction failed, the transport failed, or a response arrived with a
status code, a flag telling whether the body decodes, and the decoded
webhook id. -/
inductive HttpOutcome
  | reqFail
  | netErr
  | status (code : Nat) (decodeOk : Bool) (id : String)
  deriving DecidableEq, Repr

/-- Result of one attempt as classified by the operation passed to
`retry.Do`: success, a plain (retryable) error, or an error wrapped in
`retry.Unrecoverable`. -/
inductive AttemptRes (α : Type)
  | ok (a : α)
  | retryable (e : String)
  | unrecoverable (e : String)
  deriving DecidableEq, Repr

/-- Attempt `i`, then up to `fuel - 1` further attempts, following
retry-go: success and unrecoverable errors stop at once, retryable errors
consume attempts until the ceiling, and the error surfaced on exhaustion
carries the last cause. Also returns how many attempts ran. -/
def retryFrom (op : Nat → AttemptRes α) (i : Nat) : Nat → Except String α × Nat
  | 0 => (.error "retry: no attempts configured", 0)
  | fuel + 1 =>
    match op i with
    | .ok a => (.ok a, 1)
    | .unrecoverable e => (.error e, 1)
    | .retryable e =>
      match fuel with
      | 0 => (.error e, 1)
      | _ + 1 =>
        let r := retryFrom op (i + 1) fuel
        (r.1, r.2 + 1)

/-- `retry.Do(op, retry.Attempts(3), retry.DelayType(retry.BackOffDelay))`:
the value semantics of the retry-go call used by both Trello client
methods (backoff delays do not affect values). -/
def retryDo (op : Nat → AttemptRes α) : Except String α × Nat :=
  retryFrom op 0 3

/-- Classification performed by the closure inside
`TrelloClient.RegisterWebhook`: request-construction failure is
unrecoverable, a transport error is a plain (retryable) error, a non-200
status is retryable when 5xx and unrecoverable otherwise, and on 200 a
body-decode failure is unrecoverable. -/
def registerAttempt : HttpOutcome → AttemptRes String
  | .reqFail => .unrecoverable "failed to create post request"
  | .netErr => .retryable "failed to send post request"
  | .status code decodeOk id =>
    if code ≠ 200 then
      if 500 ≤ code then .retryable "trello API returned 5xx status"
      else .unrecoverable "trello API returned non-retryable status"
    else if decodeOk then .ok id
    else .unrecoverable "failed to decode Trello response"

/-- Classification performed by the closure inside
`TrelloClient.DeleteWebhook`: as for registration but with no body to
decode. -/
def deleteAttempt : HttpOutcome → AttemptRes Unit
  | .reqFail => .unrecoverable "failed to create delete request"
  | .netErr => .retryable "failed to send delete request"
  | .status code _ _ =>
    if code ≠ 200 then
      if 500 ≤ code then .retryable "trello API returned 5xx status"
      else .unrecoverable "trello API returned non-retryable status"
    else .ok ()

/-- `TrelloClient.RegisterWebhook`: the retried registration call against
a world giving the outcome of each attempt; returns the webhook id or the
wrapped error, together with the number of attempts made. -/
def RegisterWebhook (world : Nat → HttpOutcome) : Except String String × Nat :=
  let r := retryDo (fun i => registerAttempt (world i))
  match r.1 with
  | .error e => (.error ("unable to register webhook with Trello: " ++ e), r.2)
  | .ok id => (.ok id, r.2)

/-- `TrelloClient.DeleteWebhook`: the retried deregistration call. -/
def DeleteWebhook (world : Nat → HttpOutcome) : Except String Unit × Nat :=
  let r := retryDo (fun i => deleteAttempt (world i))
  match r.1 with
  | .error e => (.error ("unable to delete webhook with Trello: " ++ e), r.2)
  | .ok _ => (.ok (), r.2)

/-- The calendar client as the reconciliation handler sees it
(`h.CalClient`): the results of its three operations. The handler only
inspects success or failure and the returned event. -/
structure CalendarAPI where
  createEvent : Card → Except String CalEvent
  updateEvent : Card → String → Except String CalEvent
  deleteEvent : String → Except String Unit

/-- One calendar-client call issued by the handler, recorded in order for
framing arguments. -/
inductive CalCall
  | create (card : Card)
  | update (card : Card) (eventID : String)
  | delete (eventID : String)
  deriving DecidableEq, Repr

/-- Result of the initial `h.DB.First` lookup: a stored record, gorm's
`ErrRecordNotFound`, or any other database error. -/
inductive DbLookup
  | found (c : Card)
  | notFound
  | failure
  deriving DecidableEq, Repr

/-- The card the handler works on after the lookup: the stored record
when found, otherwise the zero value (`var card models.Card`). -/
def loadedCard : DbLookup → Card
  | .found c => c
  | _ => zeroCard

/-- `Handler.syncCalendarEvent`: skips archived cards, parses the
incoming due-date string (a parse failure aborts), builds the
board-prefixed display name, overwrites the card's identity fields from
the notification, then updates the linked event when one exists and
creates one otherwise, storing the returned event id. Returns the card as
mutated (or the abort error) together with the calendar calls issued. -/
def syncCalendarEvent (api : CalendarAPI) (card : Card)
    (incoming : TrelloCardData) (boardName boardID : String) :
    Except String Card × List CalCall :=
  if card.Archived then (.ok card, [])
  else
    match parseRFC3339 incoming.Due with
    | none => (.error "invalid due date format", [])
    | some newDueDate =>
      let boardPrefix := if boardName ≠ "" then
        String.singleton boardName.front else ""
      let prefixedName := "[" ++ boardPrefix ++ "] " ++ incoming.Name
      let card :=
        { card with
          ID := incoming.ID
          Name := prefixedName
          DueDate := some newDueDate
          URL := "https://trello.com/c/" ++ incoming.ShortLink
          BoardID := boardID }
      if card.EventID ≠ "" then
        match api.updateEvent card card.EventID with
        | .error e =>
          (.error ("failed to update event in Google Calendar: " ++ e),
            [.update card card.EventID])
        | .ok updatedEvent =>
          (.ok { card with EventID := updatedEvent.id },
            [.update card card.EventID])
      else
        match api.createEvent card with
        | .error e =>
          (.error ("failed to create event in Google Calendar: " ++ e),
            [.create card])
        | .ok createdEvent =>
          (.ok { card with EventID := createdEvent.id }, [.create card])

/-- `Handler.deleteCalendarEvent`: with no linked event this is a no-op;
otherwise the event is deleted best-effort (the result of
`api.deleteEvent` is only logged, never inspected for control flow) and
the local record is cleared of both the event id and the due date. Never
returns an error. -/
def deleteCalendarEvent (api : CalendarAPI) (card : Card) :
    Card × List CalCall :=
  if card.EventID = "" then (card, [])
  else
    let _ := api.deleteEvent card.EventID
    ({ card with EventID := "", DueDate := none }, [.delete card.EventID])

/-- `Handler.processCardUpdate`: the full reconciliation pass. The first
component is `.ok (some c)` when the pass hands `c` to `DB.Save`,
`.ok none` when the pass returns early with no save, and `.error e` when
the pass aborts; the second component lists the calendar-client calls
issued, in order. -/
def processCardUpdate (api : CalendarAPI) (lookup : DbLookup)
    (payload : TrelloWebhookPayload) :
    Except String (Option Card) × List CalCall :=
  if payload.action.type_ ≠ "updateCard" then (.ok none, [])
  else
    let incomingCardData := payload.action.data.card
    if incomingCardData.ID = "" then (.ok none, [])
    else
      let boardName := payload.action.data.board.Name
      let boardID := payload.action.data.board.ID
      match lookup with
      | .failure => (.error "database query failed", [])
      | _ =>
        let card := loadedCard lookup
        if incomingCardData.Closed then
          let card := { card with Archived := true }
          if card.EventID ≠ "" then
            let _ := api.deleteEvent card.EventID
            (.ok (some { card with EventID := "" }), [.delete card.EventID])
          else
            (.ok (some card), [])
        else
          let card := { card with Archived := false }
          if incomingCardData.Due ≠ "" then
            match syncCalendarEvent api card incomingCardData boardName
                boardID with
            | (.error e, calls) => (.error e, calls)
            | (.ok card, calls) => (.ok (some card), calls)
          else
            match card.DueDate with
            | some dbDue =>
              if card.EventID = "" then
                let recreateIncoming :=
                  { incomingCardData with Due := formatRFC3339 dbDue }
                match syncCalendarEvent api card recreateIncoming boardName
                    boardID with
                | (.error e, calls) => (.error e, calls)
                | (.ok card, calls) => (.ok (some card), calls)
              else
                (.ok (some card), [])
            | none =>
              let r := deleteCalendarEvent api card
              (.ok (some r.1), r.2)

/-- The due-date string `syncCalendarEvent` will be asked to parse on a
non-archiving pass, as a function of the stored card and the incoming
card data: the notification's due string when non-empty, the stored due
date reformatted as RFC3339 on the drift-repair path, and `none` when no
sync is attempted. -/
def effectiveDue (card : Card) (incoming : TrelloCardData) : Option String :=
  if incoming.Due ≠ "" then some incoming.Due
  else
    match card.DueDate with
    | some dbDue => if card.EventID = "" then some (formatRFC3339 dbDue)
      else none
    | none => none


/-- A calendar client whose every operation fails, for exercising the
best-effort paths. -/
def apiDown : CalendarAPI :=
  { createEvent := fun _ => .error "calendar unavailable"
    updateEvent := fun _ _ => .error "calendar unavailable"
    deleteEvent := fun _ => .error "calendar unavailable" }

/-- A calendar client whose operations succeed with fixed event ids. -/
def apiOK : CalendarAPI :=
  { createEvent := fun _ =>
      .ok { id := "created-1", summary := "", description := ""
            start := { date := "" }, endDT := { date := "" } }
    updateEvent := fun _ _ =>
      .ok { id := "updated-1", summary := "", description := ""
            start := { date := "" }, endDT := { date := "" } }
    deleteEvent := fun _ => .ok () }

/-- 2025-03-10T00:00:00Z as a parsed timestamp. -/
def sampleTime : GoTime :=
  { year := 2025, month := 3, day := 10, hour := 0, minute := 0
    second := 0, offMin := 0 }

/-- A stored record with a due date and a linked event. -/
def sampleCard : Card :=
  { ID := "c1", Name := "[E] Ship release", DueDate := some sampleTime
    URL := "https://trello.com/c/abc", BoardID := "b1", Archived := false
    EventID := "e1" }

/-- An "updateCard" notification for the sample card with a chosen due
string and closed flag. -/
def samplePayload (due : String) (closed : Bool) : TrelloWebhookPayload :=
  { action :=
    { data :=
      { card :=
        { ID := "c1", Name := "Ship release", Due := due
          ShortLink := "abc", Closed := closed }
        board := { ID := "b1", Name := "Eng" } }
      type_ := "updateCard" } }

/-- A successful sync leaves the archived flag exactly as it was on the
card passed in: `syncCalendarEvent` never touches `Archived`. -/
lemma syncCalendarEvent_archived (api : CalendarAPI) (card : Card)
    (incoming : TrelloCardData) (boardName boardID : String) (c : Card)
    (h : (syncCalendarEvent api card incoming boardName boardID).1 =
      .ok c) : c.Archived = card.Archived := by
  unfold syncCalendarEvent at h
  split at h
  · simp at h
    subst h
    rfl
  · split at h
    · simp at h
    · simp only at h
      split at h <;> split at h <;> simp_all
      all_goals (subst h; rfl)

/-- `deleteCalendarEvent` leaves the archived flag unchanged. -/
lemma deleteCalendarEvent_archived (api : CalendarAPI) (card : Card) :
    (deleteCalendarEvent api card).1.Archived = card.Archived := by
  unfold deleteCalendarEvent
  split <;> rfl

/-- A pass over a missing record behaves exactly as a pass over the
zero-value record: the `not found` lookup only seeds the zero value. -/
lemma processCardUpdate_notFound (api : CalendarAPI)
    (payload : TrelloWebhookPayload) :
    processCardUpdate api .notFound payload =
      processCardUpdate api (.found zeroCard) payload := rfl

/-- Any card the pass hands to the save with its archived flag set has an
empty event id; stated for a found record. -/
lemma savedArchivedAux (api : CalendarAPI) (c0 : Card)
    (payload : TrelloWebhookPayload) (c : Card) (calls : List CalCall)
    (h : processCardUpdate api (.found c0) payload = (.ok (some c), calls))
    (ha : c.Archived = true) : c.EventID = "" := by
  unfold processCardUpdate at h
  split at h
  · simp at h
  · simp only [loadedCard] at h
    split at h
    · simp at h
    · split at h
      case isTrue =>
        split at h
        · simp only [Prod.mk.injEq, Except.ok.injEq, Option.some.injEq] at h
          obtain ⟨h1, -⟩ := h
          subst h1
          rfl
        case isFalse hev =>
          simp only [Prod.mk.injEq, Except.ok.injEq, Option.some.injEq] at h
          obtain ⟨h1, -⟩ := h
          subst h1
          push_neg at hev
          exact hev
      case isFalse =>
        exfalso
        split at h
        · split at h
          case h_1 heq => simp at h
          case h_2 card2 calls2 heq =>
            simp only [Prod.mk.injEq, Except.ok.injEq, Option.some.injEq] at h
            obtain ⟨h1, -⟩ := h
            subst h1
            have harch := syncCalendarEvent_archived _ _ _ _ _ card2
              (by rw [heq])
            simp [ha] at harch
        · split at h
          case h_1 dbDue hdb2 =>
            split at h
            · split at h
              case h_1 heq => simp at h
              case h_2 card2 calls2 heq =>
                simp only [Prod.mk.injEq, Except.ok.injEq,
                  Option.some.injEq] at h
                obtain ⟨h1, -⟩ := h
                subst h1
                have harch := syncCalendarEvent_archived _ _ _ _ _ card2
                  (by rw [heq])
                simp [ha] at harch
            · simp only [Prod.mk.injEq, Except.ok.injEq,
                Option.some.injEq] at h
              obtain ⟨h1, -⟩ := h
              subst h1
              simp at ha
          case h_2 hdb2 =>
            simp only [Prod.mk.injEq, Except.ok.injEq, Option.some.injEq] at h
            obtain ⟨h1, -⟩ := h
            subst h1
            rw [deleteCalendarEvent_archived] at ha
            simp at ha

/-- C1. A notification with action type "updateCard", a non-empty card
id and the closed flag set makes the pass archive the record: the card
handed to the save is the loaded record with `Archived := true` and
`EventID := ""`, the only calendar call is the best-effort delete of the
linked event when one existed (whatever `api.deleteEvent` returns is
ignored, since `api` is universally quantified), no due-date sync call is
made, and the record is saved. -/
theorem C1_archive_transition (api : CalendarAPI) (lookup : DbLookup)
    (payload : TrelloWebhookPayload)
    (htype : payload.action.type_ = "updateCard")
    (hid : payload.action.data.card.ID ≠ "")
    (hclosed : payload.action.data.card.Closed = true)
    (hdb : lookup ≠ DbLookup.failure) :
    processCardUpdate api lookup payload =
      (.ok (some
        { loadedCard lookup with Archived := true, EventID := "" }),
        if (loadedCard lookup).EventID = "" then []
        else [CalCall.delete (loadedCard lookup).EventID]) := by
  have hmain : ∀ c : Card,
      (if c.EventID ≠ "" then
        (Except.ok (some { c with Archived := true, EventID := "" }),
          [CalCall.delete c.EventID])
      else (Except.ok (some { c with Archived := true }), [])) =
      ((Except.ok (some { c with Archived := true, EventID := "" }) :
          Except String (Option Card)),
        if c.EventID = "" then ([] : List CalCall)
        else [CalCall.delete c.EventID]) := by
    intro c
    by_cases hev : c.EventID = ""
    · cases c
      simp_all
    · simp [hev]
  cases lookup with
  | failure => exact absurd rfl hdb
  | found c =>
    simpa [processCardUpdate, htype, hid, hclosed, loadedCard] using hmain c
  | notFound =>
    simpa [processCardUpdate, htype, hid, hclosed, loadedCard] using
      hmain zeroCard

/-- C1 witness: archiving the sample card deletes its event `e1`, clears
the event id, sets the archived flag and saves, even though the client's
delete fails. -/
theorem C1_archive_transition_witness :
    processCardUpdate apiDown (.found sampleCard) (samplePayload "" true) =
      (.ok (some { sampleCard with Archived := true, EventID := "" }),
        [CalCall.delete "e1"]) := by
  have h := C1_archive_transition apiDown (.found sampleCard)
    (samplePayload "" true) rfl (by decide) rfl (by decide)
  simpa [loadedCard, sampleCard] using h

/-- C2. Every record the pass hands to the save satisfies the archive
invariant: an archived committed record has an empty event id, for every
client, lookup result and notification (in particular archiving an
already-archived record with no event id commits `Archived = true`,
`EventID = ""`). -/
theorem C2_archived_implies_no_event (api : CalendarAPI) (lookup : DbLookup)
    (payload : TrelloWebhookPayload) (c : Card) (calls : List CalCall)
    (h : processCardUpdate api lookup payload = (.ok (some c), calls))
    (ha : c.Archived = true) : c.EventID = "" := by
  cases lookup with
  | failure =>
    unfold processCardUpdate at h
    split at h
    · simp at h
    · split at h <;> (simp only at h; split at h <;> simp at h)
  | found c0 => exact savedArchivedAux api c0 payload c calls h ha
  | notFound =>
    rw [processCardUpdate_notFound] at h
    exact savedArchivedAux api zeroCard payload c calls h ha

/-- C2 witness: the record committed when archiving the sample card is
archived with an empty event id. -/
theorem C2_archived_implies_no_event_witness :
    ({ sampleCard with Archived := true, EventID := "" } : Card).EventID =
      "" :=
  C2_archived_implies_no_event apiDown (.found sampleCard)
    (samplePayload "" true)
    { sampleCard with Archived := true, EventID := "" }
    [CalCall.delete "e1"] rfl rfl

/-- A non-archived card whose incoming due string does not parse makes
`syncCalendarEvent` abort with the parse error before any calendar
call. -/
lemma syncCalendarEvent_parse_fail (api : CalendarAPI) (card : Card)
    (incoming : TrelloCardData) (boardName boardID : String)
    (harch : card.Archived = false)
    (hparse : parseRFC3339 incoming.Due = none) :
    syncCalendarEvent api card incoming boardName boardID =
      (.error "invalid due date format", []) := by
  unfold syncCalendarEvent
  rw [if_neg (by simp [harch]), hparse]

/-- A pass over a found record whose effective due string does not parse
aborts with the parse error, makes no calendar call and saves nothing. -/
lemma parseFailAux (api : CalendarAPI) (c0 : Card)
    (payload : TrelloWebhookPayload) (d : String)
    (htype : payload.action.type_ = "updateCard")
    (hid : payload.action.data.card.ID ≠ "")
    (hclosed : payload.action.data.card.Closed = false)
    (heff : effectiveDue c0 payload.action.data.card = some d)
    (hparse : parseRFC3339 d = none) :
    processCardUpdate api (.found c0) payload =
      (.error "invalid due date format", []) := by
  unfold processCardUpdate
  simp only [htype, hid, hclosed, loadedCard, if_neg, ite_false]
  simp only [ne_eq, not_true_eq_false, if_false, hid, ite_false]
  rw [if_neg (by simp)]
  by_cases hdue : payload.action.data.card.Due = ""
  · rw [if_neg (by simp [hdue])]
    unfold effectiveDue at heff
    rw [if_neg (by simp [hdue])] at heff
    cases hDD : c0.DueDate with
    | none =>
      rw [hDD] at heff
      simp at heff
    | some dbDue =>
      rw [hDD] at heff
      simp only at heff
      by_cases hev : c0.EventID = ""
      · rw [if_pos hev] at heff
        simp only [Option.some.injEq] at heff
        simp only
        rw [if_pos hev]
        rw [syncCalendarEvent_parse_fail api _ _ _ _ rfl
          (by show parseRFC3339 (formatRFC3339 dbDue) = none
              rw [heff]
              exact hparse)]
      · rw [if_neg hev] at heff
        simp at heff
  · rw [if_pos (by simp [hdue])]
    unfold effectiveDue at heff
    rw [if_pos (by simp [hdue])] at heff
    simp only [Option.some.injEq] at heff
    rw [syncCalendarEvent_parse_fail api _ _ _ _ rfl
      (by rw [heff]; exact hparse)]

/-- C3. A non-archiving "updateCard" pass whose effective due-date string
(the notification's due string, or the stored due date reformatted on the
drift-repair path) fails RFC3339 parsing returns the parse error, issues
no calendar call, and hands nothing to the save, leaving the persisted
record untouched. -/
theorem C3_parse_failure_aborts (api : CalendarAPI) (lookup : DbLookup)
    (payload : TrelloWebhookPayload) (d : String)
    (htype : payload.action.type_ = "updateCard")
    (hid : payload.action.data.card.ID ≠ "")
    (hclosed : payload.action.data.card.Closed = false)
    (hdb : lookup ≠ DbLookup.failure)
    (heff : effectiveDue (loadedCard lookup) payload.action.data.card =
      some d)
    (hparse : parseRFC3339 d = none) :
    processCardUpdate api lookup payload =
      (.error "invalid due date format", []) := by
  cases lookup with
  | failure => exact absurd rfl hdb
  | found c0 =>
    exact parseFailAux api c0 payload d htype hid hclosed heff hparse
  | notFound =>
    rw [processCardUpdate_notFound]
    exact parseFailAux api zeroCard payload d htype hid hclosed heff hparse

/-- C3 witness: a pass with due string "not-a-date" aborts with the parse
error and no calendar call. -/
theorem C3_parse_failure_aborts_witness :
    processCardUpdate apiOK (.found sampleCard)
      (samplePayload "not-a-date" false) =
      (.error "invalid due date format", []) :=
  C3_parse_failure_aborts apiOK (.found sampleCard)
    (samplePayload "not-a-date" false) "not-a-date" rfl (by decide) rfl
    (by decide) (by decide) (by decide)

/-- The card committed by the drift-repair path before the event id is
stored: identity fields rewritten from the notification, due date the
stored timestamp, archived cleared, event id still the stored one. -/
def driftRecreated (c : Card) (payload : TrelloWebhookPayload)
    (t : GoTime) : Card :=
  { c with
    ID := payload.action.data.card.ID
    Name := "[" ++ (if payload.action.data.board.Name ≠ "" then
      String.singleton payload.action.data.board.Name.front else "") ++
      "] " ++ payload.action.data.card.Name
    DueDate := some t
    URL := "https://trello.com/c/" ++ payload.action.data.card.ShortLink
    BoardID := payload.action.data.board.ID
    Archived := false }

/-- C5. For a stored record with a due date and no linked event, a
non-archiving "updateCard" notification with an empty due string makes
the pass create exactly one calendar event for the card rebuilt around
the stored due date (reformatted as RFC3339 and reparsed), and when the
client's create succeeds the committed record carries the returned event
id. -/
theorem C5_drift_repair (api : CalendarAPI) (c : Card)
    (payload : TrelloWebhookPayload) (t : GoTime)
    (htype : payload.action.type_ = "updateCard")
    (hid : payload.action.data.card.ID ≠ "")
    (hclosed : payload.action.data.card.Closed = false)
    (hdueEmpty : payload.action.data.card.Due = "")
    (hdbdue : c.DueDate = some t) (hev : c.EventID = "")
    (hround : parseRFC3339 (formatRFC3339 t) = some t) :
    (processCardUpdate api (.found c) payload).2 =
      [CalCall.create (driftRecreated c payload t)] ∧
    (driftRecreated c payload t).DueDate = some t ∧
    ∀ ev, api.createEvent (driftRecreated c payload t) = .ok ev →
      processCardUpdate api (.found c) payload =
        (.ok (some { driftRecreated c payload t with EventID := ev.id }),
          [CalCall.create (driftRecreated c payload t)]) := by
  have hred : ∀ res : Except String CalEvent,
      api.createEvent (driftRecreated c payload t) = res →
      processCardUpdate api (.found c) payload =
      match res with
      | .error e =>
        (.error ("failed to create event in Google Calendar: " ++ e),
          [CalCall.create (driftRecreated c payload t)])
      | .ok createdEvent =>
        (.ok (some
          { driftRecreated c payload t with EventID := createdEvent.id }),
          [CalCall.create (driftRecreated c payload t)]) := by
    intro res hc
    unfold processCardUpdate
    simp only [htype, hid, hclosed, loadedCard, if_neg, ite_false]
    simp only [ne_eq, not_true_eq_false, if_false, hid, ite_false]
    rw [if_neg (by simp)]
    rw [if_neg (by simp [hdueEmpty])]
    rw [hdbdue]
    simp only
    rw [if_pos hev]
    unfold syncCalendarEvent
    rw [if_neg (by simp)]
    rw [show parseRFC3339 (formatRFC3339 t) = some t from hround]
    simp only
    rw [if_neg (by simp [hev])]
    unfold driftRecreated at hc
    rw [hc]
    cases res with
    | error e => rfl
    | ok createdEvent => rfl
  refine ⟨?_, rfl, ?_⟩
  · cases hc : api.createEvent (driftRecreated c payload t) with
    | error e => rw [hred _ hc]
    | ok createdEvent => rw [hred _ hc]
  · intro ev hok
    rw [hred _ hok]

/-- C5 witness: the drift-repair pass over the sample card without a
linked event creates an event and commits the returned id. -/
theorem C5_drift_repair_witness :
    processCardUpdate apiOK (.found { sampleCard with EventID := "" })
      (samplePayload "" false) =
      (.ok (some { driftRecreated { sampleCard with EventID := "" }
        (samplePayload "" false) sampleTime with EventID := "created-1" }),
        [CalCall.create (driftRecreated { sampleCard with EventID := "" }
          (samplePayload "" false) sampleTime)]) :=
  (C5_drift_repair apiOK { sampleCard with EventID := "" }
    (samplePayload "" false) sampleTime rfl (by decide) rfl rfl rfl rfl
    (by decide)).2.2
    { id := "created-1", summary := "", description := ""
      start := { date := "" }, endDT := { date := "" } } rfl

/-- C9 counterexample. The claim quantifies over every record with a due
date and a linked event, but an archived such record is not left
unchanged: the pass clears its archived flag before saving. Here the pass
over the archived sample card commits the card with `Archived = false`,
which differs from the stored record. -/
theorem C9_noop_counterexample :
    processCardUpdate apiOK (.found { sampleCard with Archived := true })
      (samplePayload "" false) =
      (.ok (some sampleCard), []) ∧
    sampleCard ≠ { sampleCard with Archived := true } :=
  ⟨rfl, by decide⟩

/-- C9 as amended: for a non-archived record with both a due date and a
linked event, a non-archiving "updateCard" notification with an empty due
string commits the record completely unchanged and issues no calendar
call. -/
theorem C9_noop_drift (api : CalendarAPI) (c : Card)
    (payload : TrelloWebhookPayload) (t : GoTime)
    (htype : payload.action.type_ = "updateCard")
    (hid : payload.action.data.card.ID ≠ "")
    (hclosed : payload.action.data.card.Closed = false)
    (hdueEmpty : payload.action.data.card.Due = "")
    (hdbdue : c.DueDate = some t) (hev : c.EventID ≠ "")
    (harch : c.Archived = false) :
    processCardUpdate api (.found c) payload = (.ok (some c), []) := by
  unfold processCardUpdate
  simp only [htype, hid, hclosed, loadedCard, if_neg, ite_false]
  simp only [ne_eq, not_true_eq_false, if_false, hid, ite_false]
  rw [if_neg (by simp)]
  rw [if_neg (by simp [hdueEmpty])]
  rw [hdbdue]
  simp only
  rw [if_neg hev]
  cases c
  simp_all

/-- C9 witness: the no-op pass over the sample card leaves it exactly as
stored and calls nothing. -/
theorem C9_noop_drift_witness :
    processCardUpdate apiOK (.found sampleCard) (samplePayload "" false) =
      (.ok (some sampleCard), []) :=
  C9_noop_drift apiOK sampleCard (samplePayload "" false) sampleTime rfl
    (by decide) rfl rfl rfl (by decide) rfl

/-- A Google Calendar service whose operations succeed, echoing a fixed
event id. -/
def remoteOK : GCalRemote :=
  { insert := fun _ ev => .ok { ev with id := "gcal-1" }
    get := fun _ eventID =>
      .ok { id := eventID, summary := "old", description := "old"
            start := { date := "2000-01-01" }, endDT := { date := "2000-01-02" } }
    update := fun _ _ ev => .ok ev
    delete := fun _ _ => .ok () }

/-- A Google Calendar service that reports every event as missing. -/
def remote404 : GCalRemote :=
  { insert := fun _ _ => .error (.api 404)
    get := fun _ _ => .error (.api 404)
    update := fun _ _ _ => .error (.api 404)
    delete := fun _ _ => .error (.api 404) }

/-- A Google Calendar service that always fails with a 503 server
error, the retryable class of failure. -/
def remote503 : GCalRemote :=
  { insert := fun _ _ => .error (.api 503)
    get := fun _ _ => .error (.api 503)
    update := fun _ _ _ => .error (.api 503)
    delete := fun _ _ => .error (.api 503) }

/-- A Google Calendar service failing with a non-HTTP error. -/
def remoteBoom : GCalRemote :=
  { insert := fun _ _ => .error (.other "boom")
    get := fun _ _ => .error (.other "boom")
    update := fun _ _ _ => .error (.other "boom")
    delete := fun _ _ => .error (.other "boom") }

/-- The event body `CreateEvent` builds for a card with due date `t`:
summary the card name, description the card URL behind the literal
prefix, an all-day span from the due date to the next day. -/
def builtEvent (card : Card) (t : GoTime) : CalEvent :=
  { id := "", summary := card.Name
    description := "Trello Card: " ++ card.URL
    start := { date := format20060102 t }
    endDT := { date := format20060102 (addOneDay t) } }

/-- C6 counterexample. The event actually inserted for the sample card
has description "Trello Card: https://trello.com/c/abc", which is not the
card's source link: the claim that the description equals the source link
fails on every card. -/
theorem C6_description_counterexample :
    (CreateEvent remoteOK "cal" sampleCard).2 =
      [RemoteCall.insert "cal" (builtEvent sampleCard sampleTime)] ∧
    (builtEvent sampleCard sampleTime).description ≠ sampleCard.URL :=
  ⟨rfl, by decide⟩

/-- C6 as amended: `CreateEvent` fails for a card with no due date
without any remote call; for a card with due date `t` and a configured
calendar id it inserts exactly one all-day event spanning the due date to
the due date plus one day, with summary the card name and description the
source link behind the literal prefix "Trello Card: ", and a successful
insert's event is returned. -/
theorem C6_create_event (remote : GCalRemote) (calendarID : String)
    (card : Card) (t : GoTime)
    (hdue : card.DueDate = some t) (hcal : calendarID ≠ "") :
    (CreateEvent remote calendarID card).2 =
      [RemoteCall.insert calendarID (builtEvent card t)] ∧
    (∀ ev, remote.insert calendarID (builtEvent card t) = .ok ev →
      (CreateEvent remote calendarID card).1 = .ok ev) ∧
    (∀ (remote2 : GCalRemote) (calendarID2 : String) (card2 : Card),
      card2.DueDate = none →
      CreateEvent remote2 calendarID2 card2 =
        (.error "card does not have a due date, cannot create event",
          [])) := by
  refine ⟨?_, ?_, ?_⟩
  · unfold CreateEvent
    rw [hdue]
    simp only
    rw [if_neg hcal]
    cases hc : remote.insert calendarID (builtEvent card t) with
    | error e =>
      unfold builtEvent at hc
      rw [hc]
      rfl
    | ok ev =>
      unfold builtEvent at hc
      rw [hc]
      rfl
  · intro ev hok
    unfold CreateEvent
    rw [hdue]
    simp only
    rw [if_neg hcal]
    unfold builtEvent at hok
    rw [hok]
  · intro remote2 calendarID2 card2 hnone
    unfold CreateEvent
    rw [hnone]

/-- C6 witness: creating an event for the sample card issues exactly the
insert of the built event. -/
theorem C6_create_event_witness :
    (CreateEvent remoteOK "cal" sampleCard).2 =
      [RemoteCall.insert "cal" (builtEvent sampleCard sampleTime)] :=
  (C6_create_event remoteOK "cal" sampleCard sampleTime rfl (by decide)).1

/-- C7. With a configured calendar id, a delete whose remote answer is a
`googleapi.Error` with code 404 succeeds (the event is already gone),
while any other remote error propagates as the wrapped failure. -/
theorem C7_delete_not_found_benign (remote : GCalRemote)
    (calendarID eventID : String) (hcal : calendarID ≠ "") :
    (remote.delete calendarID eventID = .error (.api 404) →
      DeleteEvent remote calendarID eventID =
        (.ok (), [RemoteCall.delete calendarID eventID])) ∧
    (∀ e, remote.delete calendarID eventID = .error e → e ≠ .api 404 →
      DeleteEvent remote calendarID eventID =
        (.error "unable to delete event from Google Calendar",
          [RemoteCall.delete calendarID eventID])) := by
  constructor
  · intro h404
    unfold DeleteEvent
    rw [if_neg hcal, h404]
  · intro e he hne
    unfold DeleteEvent
    rw [if_neg hcal, he]
    split
    · simp_all
    · split <;> simp_all

/-- C7 witness: a 404 delete succeeds; a non-404 failure propagates. -/
theorem C7_delete_not_found_benign_witness :
    DeleteEvent remote404 "cal" "e1" =
      (.ok (), [RemoteCall.delete "cal" "e1"]) ∧
    DeleteEvent remoteBoom "cal" "e1" =
      (.error "unable to delete event from Google Calendar",
        [RemoteCall.delete "cal" "e1"]) :=
  ⟨(C7_delete_not_found_benign remote404 "cal" "e1" (by decide)).1 rfl,
   (C7_delete_not_found_benign remoteBoom "cal" "e1" (by decide)).2
     (.other "boom") rfl (by decide)⟩

/-- C10. Each calendar-client operation guards its inputs before any
remote call: an empty configured calendar id yields an error with no
remote call for all three operations, and a card with no due date yields
an error with no remote call for create and update. -/
theorem C10_precondition_guards :
    (∀ (remote : GCalRemote) (card : Card), ∃ e,
      CreateEvent remote "" card = (.error e, [])) ∧
    (∀ (remote : GCalRemote) (card : Card) (eventID : String), ∃ e,
      UpdateEvent remote "" card eventID = (.error e, [])) ∧
    (∀ (remote : GCalRemote) (eventID : String),
      DeleteEvent remote "" eventID =
        (.error "google calendar ID is not configured", [])) ∧
    (∀ (remote : GCalRemote) (calendarID : String) (card : Card),
      card.DueDate = none →
      CreateEvent remote calendarID card =
        (.error "card does not have a due date, cannot create event",
          [])) ∧
    (∀ (remote : GCalRemote) (calendarID : String) (card : Card)
      (eventID : String), card.DueDate = none →
      UpdateEvent remote calendarID card eventID =
        (.error "card does not have a due date, cannot update event",
          [])) := by
  refine ⟨?_, ?_, ?_, ?_, ?_⟩
  · intro remote card
    unfold CreateEvent
    cases hdue : card.DueDate with
    | none => exact ⟨_, rfl⟩
    | some t =>
      refine ⟨"google calendar ID is not configured", ?_⟩
      simp
  · intro remote card eventID
    unfold UpdateEvent
    cases hdue : card.DueDate with
    | none => exact ⟨_, rfl⟩
    | some t =>
      refine ⟨"google calendar ID is not configured", ?_⟩
      simp
  · intro remote eventID
    unfold DeleteEvent
    simp
  · intro remote calendarID card hnone
    unfold CreateEvent
    rw [hnone]
  · intro remote calendarID card eventID hnone
    unfold UpdateEvent
    rw [hnone]

/-- C10 witness: the guards at concrete inputs. -/
theorem C10_precondition_guards_witness :
    DeleteEvent remoteOK "" "e1" =
      (.error "google calendar ID is not configured", []) ∧
    CreateEvent remoteOK "cal" zeroCard =
      (.error "card does not have a due date, cannot create event", []) ∧
    UpdateEvent remoteOK "cal" zeroCard "e1" =
      (.error "card does not have a due date, cannot update event", []) :=
  ⟨C10_precondition_guards.2.2.1 remoteOK "e1",
   C10_precondition_guards.2.2.2.1 remoteOK "cal" zeroCard rfl,
   C10_precondition_guards.2.2.2.2 remoteOK "cal" zeroCard "e1" rfl⟩

/-- True exactly for a fetch remote call. -/
def isGetCall : RemoteCall → Bool
  | .get _ _ => true
  | _ => false

/-- True exactly for an update remote call. -/
def isUpdateCall : RemoteCall → Bool
  | .update _ _ _ => true
  | _ => false

/-- C8 counterexample. Under a remote that persistently fails with a 503
server error (the retryable class), each calendar-client operation issues
exactly one remote call and gives up, while the Retryable Call Executor,
as exercised by the webhook registration on the same class of failure,
makes 3 attempts: the calendar client does not delegate through the
executor. -/
theorem C8_no_retry_counterexample :
    (CreateEvent remote503 "cal" sampleCard).2.length = 1 ∧
    (UpdateEvent remote503 "cal" sampleCard "e1").2.length = 1 ∧
    (DeleteEvent remote503 "cal" "e1").2.length = 1 ∧
    (RegisterWebhook (fun _ => .status 503 true "")).2 = 3 ∧
    (1 : Nat) ≠ 3 :=
  ⟨rfl, rfl, rfl, rfl, by decide⟩

/-- C8 as amended: the three calendar-client operations perform their
remote calls directly, one single attempt per endpoint and no retry:
create and delete issue at most one call, update at most one fetch and
one update. The retry executor is used only by the webhook subscription
calls. -/
theorem C8_single_attempt (remote : GCalRemote) (calendarID : String)
    (card : Card) (eventID : String) :
    (CreateEvent remote calendarID card).2.length ≤ 1 ∧
    (DeleteEvent remote calendarID eventID).2.length ≤ 1 ∧
    (UpdateEvent remote calendarID card eventID).2.length ≤ 2 ∧
    (UpdateEvent remote calendarID card eventID).2.countP
      (fun r => isGetCall r) ≤ 1 ∧
    (UpdateEvent remote calendarID card eventID).2.countP
      (fun r => isUpdateCall r) ≤ 1 := by
  refine ⟨?_, ?_, ?_, ?_, ?_⟩
  · unfold CreateEvent
    split
    · simp
    · split
      · simp
      · simp only
        split <;> simp
  · unfold DeleteEvent
    split
    · simp
    · split
      · simp
      · split <;> simp
  · unfold UpdateEvent
    split
    · simp
    · split
      · simp
      · split
        · simp
        · simp only
          split <;> simp
  · unfold UpdateEvent
    split
    · simp
    · split
      · simp
      · split
        · simp [isGetCall, isUpdateCall]
        · simp only
          split <;> simp [isGetCall, isUpdateCall]
  · unfold UpdateEvent
    split
    · simp
    · split
      · simp
      · split
        · simp [isGetCall, isUpdateCall]
        · simp only
          split <;> simp [isGetCall, isUpdateCall]

/-- An attempt outcome of the retryable class: a transport failure or a
5xx response. -/
def retryableOutcome (o : HttpOutcome) : Prop :=
  o = .netErr ∨ ∃ code dec id, o = .status code dec id ∧ 500 ≤ code

/-- An attempt outcome the registration closure classifies as terminal:
request-construction failure, a non-5xx non-200 response, or a 200
response whose body fails to decode. -/
def terminalRegisterOutcome (o : HttpOutcome) : Prop :=
  o = .reqFail ∨
    (∃ code dec id, o = .status code dec id ∧ code ≠ 200 ∧ code < 500) ∨
    ∃ id, o = .status 200 false id

/-- An attempt outcome the deregistration closure classifies as terminal:
request-construction failure or a non-5xx non-200 response. -/
def terminalDeleteOutcome (o : HttpOutcome) : Prop :=
  o = .reqFail ∨
    ∃ code dec id, o = .status code dec id ∧ code ≠ 200 ∧ code < 500

/-- Retryable-class outcomes are classified as plain retryable errors by
the registration closure. -/
lemma registerAttempt_retryable (o : HttpOutcome)
    (h : retryableOutcome o) : ∃ e, registerAttempt o = .retryable e := by
  rcases h with h | ⟨code, dec, id, h, hcode⟩
  · subst h
    exact ⟨_, rfl⟩
  · subst h
    refine ⟨"trello API returned 5xx status", ?_⟩
    simp only [registerAttempt]
    rw [if_pos (by omega : code ≠ 200), if_pos hcode]

/-- Retryable-class outcomes are classified as plain retryable errors by
the deregistration closure. -/
lemma deleteAttempt_retryable (o : HttpOutcome)
    (h : retryableOutcome o) : ∃ e, deleteAttempt o = .retryable e := by
  rcases h with h | ⟨code, dec, id, h, hcode⟩
  · subst h
    exact ⟨_, rfl⟩
  · subst h
    refine ⟨"trello API returned 5xx status", ?_⟩
    simp only [deleteAttempt]
    rw [if_pos (by omega : code ≠ 200), if_pos hcode]

/-- Terminal-class outcomes are wrapped in `retry.Unrecoverable` by the
registration closure. -/
lemma registerAttempt_terminal (o : HttpOutcome)
    (h : terminalRegisterOutcome o) :
    ∃ e, registerAttempt o = .unrecoverable e := by
  rcases h with h | ⟨code, dec, id, h, hne, hlt⟩ | ⟨id, h⟩
  · subst h
    exact ⟨_, rfl⟩
  · subst h
    refine ⟨"trello API returned non-retryable status", ?_⟩
    simp only [registerAttempt]
    rw [if_pos hne, if_neg (by omega : ¬500 ≤ code)]
  · subst h
    exact ⟨"failed to decode Trello response", rfl⟩

/-- Terminal-class outcomes are wrapped in `retry.Unrecoverable` by the
deregistration closure. -/
lemma deleteAttempt_terminal (o : HttpOutcome)
    (h : terminalDeleteOutcome o) :
    ∃ e, deleteAttempt o = .unrecoverable e := by
  rcases h with h | ⟨code, dec, id, h, hne, hlt⟩
  · subst h
    exact ⟨_, rfl⟩
  · subst h
    refine ⟨"trello API returned non-retryable status", ?_⟩
    simp only [deleteAttempt]
    rw [if_pos hne, if_neg (by omega : ¬500 ≤ code)]

/-- An operation whose first three attempts are all retryable exhausts
the ceiling: three attempts run and the error surfaced is the last
attempt's cause. -/
lemma retryDo_three_retryable (op : Nat → AttemptRes α)
    (h : ∀ i, i < 3 → ∃ e, op i = .retryable e) :
    ∃ e, op 2 = .retryable e ∧ retryDo op = (.error e, 3) := by
  obtain ⟨e0, h0⟩ := h 0 (by omega)
  obtain ⟨e1, h1⟩ := h 1 (by omega)
  obtain ⟨e2, h2⟩ := h 2 (by omega)
  refine ⟨e2, h2, ?_⟩
  unfold retryDo
  unfold retryFrom
  rw [h0]
  simp only
  unfold retryFrom
  rw [h1]
  simp only
  unfold retryFrom
  rw [h2]

/-- An operation whose first attempt is unrecoverable stops immediately:
one attempt runs and its error is surfaced. -/
lemma retryDo_first_unrecoverable (op : Nat → AttemptRes α) (e : String)
    (h : op 0 = .unrecoverable e) : retryDo op = (.error e, 1) := by
  unfold retryDo
  unfold retryFrom
  rw [h]

/-- C4. For both wrapped Trello operations: when every attempt fails
with a retryable-class outcome (network error or 5xx status) the
operation is attempted exactly 3 times and the surfaced error carries the
last attempt's cause; when the first attempt is a terminal-class outcome
(request-construction failure, non-5xx non-200 status, or — for the
registration call — a decode failure) exactly one attempt runs and its
error is surfaced immediately. -/
theorem C4_retry_ceiling (world : Nat → HttpOutcome) :
    ((∀ i, i < 3 → retryableOutcome (world i)) →
      (RegisterWebhook world).2 = 3 ∧ ∃ e,
        registerAttempt (world 2) = .retryable e ∧
        (RegisterWebhook world).1 =
          .error ("unable to register webhook with Trello: " ++ e)) ∧
    ((∀ i, i < 3 → retryableOutcome (world i)) →
      (DeleteWebhook world).2 = 3 ∧ ∃ e,
        deleteAttempt (world 2) = .retryable e ∧
        (DeleteWebhook world).1 =
          .error ("unable to delete webhook with Trello: " ++ e)) ∧
    (terminalRegisterOutcome (world 0) →
      (RegisterWebhook world).2 = 1 ∧ ∃ e,
        registerAttempt (world 0) = .unrecoverable e ∧
        (RegisterWebhook world).1 =
          .error ("unable to register webhook with Trello: " ++ e)) ∧
    (terminalDeleteOutcome (world 0) →
      (DeleteWebhook world).2 = 1 ∧ ∃ e,
        deleteAttempt (world 0) = .unrecoverable e ∧
        (DeleteWebhook world).1 =
          .error ("unable to delete webhook with Trello: " ++ e)) := by
  refine ⟨fun h => ?_, fun h => ?_, fun h => ?_, fun h => ?_⟩
  · obtain ⟨e, he, hr⟩ := retryDo_three_retryable
      (fun i => registerAttempt (world i))
      (fun i hi => registerAttempt_retryable _ (h i hi))
    unfold RegisterWebhook
    rw [hr]
    exact ⟨rfl, e, he, rfl⟩
  · obtain ⟨e, he, hr⟩ := retryDo_three_retryable
      (fun i => deleteAttempt (world i))
      (fun i hi => deleteAttempt_retryable _ (h i hi))
    unfold DeleteWebhook
    rw [hr]
    exact ⟨rfl, e, he, rfl⟩
  · obtain ⟨e, he⟩ := registerAttempt_terminal _ h
    have hr := retryDo_first_unrecoverable
      (fun i => registerAttempt (world i)) e he
    unfold RegisterWebhook
    rw [hr]
    exact ⟨rfl, e, he, rfl⟩
  · obtain ⟨e, he⟩ := deleteAttempt_terminal _ h
    have hr := retryDo_first_unrecoverable
      (fun i => deleteAttempt (world i)) e he
    unfold DeleteWebhook
    rw [hr]
    exact ⟨rfl, e, he, rfl⟩

/-- C4 witness: a persistently failing transport makes both webhook
operations attempt 3 times; a request-construction failure on the first
attempt stops both after 1 attempt. -/
theorem C4_retry_ceiling_witness :
    (RegisterWebhook (fun _ => .netErr)).2 = 3 ∧
    (DeleteWebhook (fun _ => .netErr)).2 = 3 ∧
    (RegisterWebhook (fun _ => .reqFail)).2 = 1 ∧
    (DeleteWebhook (fun _ => .reqFail)).2 = 1 :=
  ⟨((C4_retry_ceiling (fun _ => .netErr)).1 (fun _ _ => Or.inl rfl)).1,
   ((C4_retry_ceiling (fun _ => .netErr)).2.1 (fun _ _ => Or.inl rfl)).1,
   ((C4_retry_ceiling (fun _ => .reqFail)).2.2.1 (Or.inl rfl)).1,
   ((C4_retry_ceiling (fun _ => .reqFail)).2.2.2 (Or.inl rfl)).1⟩
